import Mathlib

/-!
Verification of the campaign-funnel simulation scripts of this
repository: `simulate.py` (variant 1) and `simulation.py` (variant 2).

Both scripts compute, for four fixed scenarios, the funnel metrics
views, clicks, conversions, revenue, profit and ROI.  The numeric core
is embedded shallowly over `ℚ`: every numeric literal in the source is
an exactly representable decimal, so the rational computation is the
exact value the floating-point code approximates (the specification
states every numeric property only up to floating-point tolerance).
A Python `ZeroDivisionError` is modelled by `Option`: a computation
that would raise returns `none`.
-/

/-- One output row of either variant: the dictionary appended to
`results` in `simulate.py` (lines 77-87), respectively to `rows` in
`simulation.py` (lines 75-87).  The field `name` carries the
dictionary's "Scenario" entry. -/
structure ScenarioResult where
  name : String
  budget : ℚ
  days : ℕ
  views : ℚ
  clicks : ℚ
  conversions : ℚ
  revenue : ℚ
  profit : ℚ
  roi : ℚ
deriving DecidableEq

/-- The metrics of a result row, everything except `days`: used to
state that `days` has no influence on any computed value. -/
def metricsOf (r : ScenarioResult) : String × ℚ × ℚ × ℚ × ℚ × ℚ × ℚ × ℚ :=
  (r.name, r.budget, r.views, r.clicks, r.conversions, r.revenue, r.profit, r.roi)

/-- Every field of a result row except `roi`: used to compare the two
variants, which agree on all fields but `roi`. -/
def rowData (r : ScenarioResult) : String × ℚ × ℕ × ℚ × ℚ × ℚ × ℚ × ℚ :=
  (r.name, r.budget, r.days, r.views, r.clicks, r.conversions, r.revenue, r.profit)

namespace Simulate

/-- The loop body of `run_scenarios` in `simulate.py` (lines 66-87):
the funnel pipeline for one scenario.  Returns `none` when the Python
code would raise `ZeroDivisionError` (`views = budget / cpv` with
`cpv = 0`); the ROI division is guarded in the source
(`roi = revenue / budget if budget != 0 else 0.0`, line 76). -/
def computeRow (name : String) (budget : ℚ) (days : ℕ)
    (cpv ctr conv revenue_per_sale profit_per_sale : ℚ) :
    Option ScenarioResult :=
  if cpv = 0 then none
  else
    let views := budget / cpv
    let clicks := views * ctr
    let conversions := clicks * conv
    let revenue := conversions * revenue_per_sale
    let profit := conversions * profit_per_sale
    let roi := if budget ≠ 0 then revenue / budget else 0
    some ⟨name, budget, days, views, clicks, conversions, revenue, profit, roi⟩

/-- The static scenario table of `run_scenarios` (lines 59-64):
name, budget, days, cpv, ctr, conversion rate. -/
def scenarios (cpv_small cpv_large ctr_small ctr_large conv_small conv_large : ℚ) :
    List (String × ℚ × ℕ × ℚ × ℚ × ℚ) :=
  [("Small", 100, 5, cpv_small, ctr_small, conv_small),
   ("Baseline", 200, 10, cpv_small, ctr_small, conv_small),
   ("Large", 500, 30, cpv_large, ctr_large, conv_large),
   ("Long", 400, 60, cpv_large, ctr_large, conv_large)]

/-- `run_scenarios` of `simulate.py` (lines 38-88): the funnel pipeline
applied to every entry of the scenario table, `none` if any iteration
raises. -/
def run_scenarios (cpv_small cpv_large ctr_small ctr_large conv_small conv_large
    revenue_per_sale profit_per_sale : ℚ) : Option (List ScenarioResult) :=
  (scenarios cpv_small cpv_large ctr_small ctr_large conv_small conv_large).mapM
    (fun t => computeRow t.1 t.2.1 t.2.2.1 t.2.2.2.1 t.2.2.2.2.1 t.2.2.2.2.2
      revenue_per_sale profit_per_sale)

/-- The "Small" row produced by `run_scenarios` at the default CLI
parameters of `parse_args` (lines 109-116): cpv 0.06, ctr 0.05,
conversion rate 0.04, revenue 100 and profit 50 per sale, written as
exact rationals. -/
def smallRow : ScenarioResult :=
  ⟨"Small", 100, 5, mkRat 5000 3, mkRat 250 3, mkRat 10 3, mkRat 1000 3, mkRat 500 3,
    mkRat 10 3⟩

/-- The "Baseline" row at the default parameters. -/
def baselineRow : ScenarioResult :=
  ⟨"Baseline", 200, 10, mkRat 10000 3, mkRat 500 3, mkRat 20 3, mkRat 2000 3, mkRat 1000 3,
    mkRat 10 3⟩

/-- The "Large" row at the default parameters (cpv 0.05, ctr 0.06,
conversion rate 0.05). -/
def largeRow : ScenarioResult := ⟨"Large", 500, 30, 10000, 600, 30, 3000, 1500, 6⟩

/-- The "Long" row at the default parameters. -/
def longRow : ScenarioResult := ⟨"Long", 400, 60, 8000, 480, 24, 2400, 1200, 6⟩

/-- The full result list of `run_scenarios` at the default parameters. -/
def defaultResults : List ScenarioResult := [smallRow, baselineRow, largeRow, longRow]

/-- The `fieldnames` list of `save_to_csv` (line 99): the CSV header. -/
def fieldnames : List String :=
  ["Scenario", "Budget", "Days", "Views", "Clicks", "Conversions", "Revenue", "Profit", "ROI"]

/-- Rendering of one numeric cell.  Python's `csv.DictWriter` writes
`str(value)`, whose float rendering round-trips exactly through
`float()`; we model the cell codec by the exact rendering of the
rational (integers without, other values with an explicit
denominator). -/
def ratCell (q : ℚ) : String :=
  if q.den = 1 then toString q.num
  else toString q.num ++ "/" ++ toString q.den

/-- One data row written by `writer.writerow(row)` (line 103), in the
`fieldnames` column order. -/
def csvRow (r : ScenarioResult) : List String :=
  [r.name, ratCell r.budget, toString r.days, ratCell r.views, ratCell r.clicks,
   ratCell r.conversions, ratCell r.revenue, ratCell r.profit, ratCell r.roi]

/-- `save_to_csv` of `simulate.py` (lines 91-103) as the file content
it produces, one list of cells per line: `writer.writeheader()` puts
the header first and the loop then appends one row per result. -/
def save_to_csv (results : List ScenarioResult) : List (List String) :=
  results.foldl (fun file r => file ++ [csvRow r]) [fieldnames]

/-- Decimal digit value of a character. -/
def digitVal (c : Char) : Option ℕ :=
  if c = '0' then some 0 else if c = '1' then some 1 else if c = '2' then some 2
  else if c = '3' then some 3 else if c = '4' then some 4 else if c = '5' then some 5
  else if c = '6' then some 6 else if c = '7' then some 7 else if c = '8' then some 8
  else if c = '9' then some 9 else none

/-- Accumulator loop for reading a decimal numeral. -/
def natFromCharsAux : List Char → ℕ → Option ℕ
  | [], acc => some acc
  | c :: cs, acc =>
    match digitVal c with
    | some d => natFromCharsAux cs (10 * acc + d)
    | none => none

/-- Reads a nonempty decimal numeral. -/
def natFromChars (cs : List Char) : Option ℕ :=
  match cs with
  | [] => none
  | _ => natFromCharsAux cs 0

/-- Reads an integer, an optional minus sign before a numeral. -/
def intFromChars : List Char → Option ℤ
  | '-' :: rest => (natFromChars rest).map (fun n => -(n : ℤ))
  | cs => (natFromChars cs).map (fun n => (n : ℤ))

/-- Splits a character list at the first slash, if any. -/
def splitSlash : List Char → List Char × Option (List Char)
  | [] => ([], none)
  | c :: cs =>
    if c = '/' then ([], some cs)
    else
      let p := splitSlash cs
      (c :: p.1, p.2)

/-- Modelled from the spec: the repository ships no CSV reader, but the
spec requires that "writing then reading the 4-row table reproduces
identical values within float tolerance"; this is the numeric-cell
reader inverting `ratCell`, as Python's `float()` inverts `str()` on a
float. -/
def parseRat (s : String) : Option ℚ :=
  match splitSlash s.data with
  | (as, none) => (intFromChars as).map (fun n => mkRat n 1)
  | (as, some bs) =>
    match intFromChars as, natFromChars bs with
    | some n, some d => if d = 0 then none else some (mkRat n d)
    | _, _ => none

/-- Modelled from the spec: reading back one CSV data row written by
`save_to_csv`, in the `fieldnames` column order. -/
def parseRow : List String → Option ScenarioResult
  | [n, b, d, v, c, cv, rev, p, r] =>
    match parseRat b, natFromChars d.data, parseRat v, parseRat c, parseRat cv,
        parseRat rev, parseRat p, parseRat r with
    | some b, some d, some v, some c, some cv, some rev, some p, some r =>
      some ⟨n, b, d, v, c, cv, rev, p, r⟩
    | _, _, _, _, _, _, _, _ => none
  | _ => none

/-- Modelled from the spec: reading back a whole CSV file written by
`save_to_csv`: the first line must be the header, every further line
is parsed as a data row. -/
def parse_csv : List (List String) → Option (List ScenarioResult)
  | [] => none
  | h :: rows => if h = fieldnames then rows.mapM parseRow else none

end Simulate

namespace Simulation

/-- One entry of the `scenarios` list of dictionaries in
`simulation.py` (lines 23-64). -/
structure SimScenario where
  name : String
  budget : ℚ
  days : ℕ
  cpv : ℚ
  ctr : ℚ
  convRate : ℚ
  revenuePerSale : ℚ
  profitPerSale : ℚ
deriving DecidableEq

/-- The hard-coded scenario list of `simulation.py` (lines 23-64). -/
def simScenarios : List SimScenario :=
  [⟨"Small", 100, 5, 0.06, 0.05, 0.04, 100, 50⟩,
   ⟨"Baseline", 200, 10, 0.06, 0.05, 0.04, 100, 50⟩,
   ⟨"Large", 500, 30, 0.05, 0.06, 0.05, 100, 50⟩,
   ⟨"Long", 400, 60, 0.05, 0.06, 0.05, 100, 50⟩]

/-- The loop body of `run_simulation` in `simulation.py` (lines 67-87).
Variant 2 guards no division: `views = budget / cpv` (line 69) raises
when `cpv = 0` and `roi = profit / budget` (line 74) raises when
`budget = 0`, both modelled by `none`. -/
def simRow (s : SimScenario) : Option ScenarioResult :=
  if s.cpv = 0 then none
  else if s.budget = 0 then none
  else
    let views := s.budget / s.cpv
    let clicks := views * s.ctr
    let conversions := clicks * s.convRate
    let revenue := conversions * s.revenuePerSale
    let profit := conversions * s.profitPerSale
    let roi := profit / s.budget
    some ⟨s.name, s.budget, s.days, views, clicks, conversions, revenue, profit, roi⟩

/-- The numeric core of `run_simulation` in `simulation.py`
(lines 22-87): the rows of the DataFrame it builds (the CSV write and
the chart are IO around this list). -/
def run_simulation : Option (List ScenarioResult) := simScenarios.mapM simRow

/-- The "Small" row `run_simulation` produces, as exact rationals;
its ROI is profit over budget. -/
def simSmall : ScenarioResult :=
  ⟨"Small", 100, 5, mkRat 5000 3, mkRat 250 3, mkRat 10 3, mkRat 1000 3, mkRat 500 3,
    mkRat 5 3⟩

/-- The "Baseline" row of `run_simulation`. -/
def simBaseline : ScenarioResult :=
  ⟨"Baseline", 200, 10, mkRat 10000 3, mkRat 500 3, mkRat 20 3, mkRat 2000 3, mkRat 1000 3,
    mkRat 5 3⟩

/-- The "Large" row of `run_simulation`. -/
def simLarge : ScenarioResult := ⟨"Large", 500, 30, 10000, 600, 30, 3000, 1500, 3⟩

/-- The "Long" row of `run_simulation`. -/
def simLong : ScenarioResult := ⟨"Long", 400, 60, 8000, 480, 24, 2400, 1200, 3⟩

/-- The full row list of `run_simulation`. -/
def simResults : List ScenarioResult := [simSmall, simBaseline, simLarge, simLong]

/-- The CSV content written by `df.to_csv("simulation_results.csv",
index=False)` (line 91): the column names as header, then one row per
scenario, with the same cell rendering as variant 1. -/
def simulation_csv : Option (List (List String)) :=
  run_simulation.map Simulate.save_to_csv

end Simulation

namespace Simulate

/-- Closed form of the loop body when `cpv` is nonzero. -/
theorem computeRow_eq {cpv : ℚ} (h : cpv ≠ 0) (name : String) (budget : ℚ) (days : ℕ)
    (ctr conv rps pps : ℚ) :
    computeRow name budget days cpv ctr conv rps pps =
      some ⟨name, budget, days, budget / cpv, budget / cpv * ctr, budget / cpv * ctr * conv,
        budget / cpv * ctr * conv * rps, budget / cpv * ctr * conv * pps,
        if budget ≠ 0 then budget / cpv * ctr * conv * rps / budget else 0⟩ := by
  simp [computeRow, h]

/-- Closed form of `run_scenarios` when both cpv parameters are
nonzero: the four rows with the budgets 100, 200, 500, 400. -/
theorem run_scenarios_eq (ps pl ts tl cs cl rps pps : ℚ) (hs : ps ≠ 0) (hl : pl ≠ 0) :
    run_scenarios ps pl ts tl cs cl rps pps = some
      [⟨"Small", 100, 5, 100 / ps, 100 / ps * ts, 100 / ps * ts * cs,
          100 / ps * ts * cs * rps, 100 / ps * ts * cs * pps, 100 / ps * ts * cs * rps / 100⟩,
       ⟨"Baseline", 200, 10, 200 / ps, 200 / ps * ts, 200 / ps * ts * cs,
          200 / ps * ts * cs * rps, 200 / ps * ts * cs * pps, 200 / ps * ts * cs * rps / 200⟩,
       ⟨"Large", 500, 30, 500 / pl, 500 / pl * tl, 500 / pl * tl * cl,
          500 / pl * tl * cl * rps, 500 / pl * tl * cl * pps, 500 / pl * tl * cl * rps / 500⟩,
       ⟨"Long", 400, 60, 400 / pl, 400 / pl * tl, 400 / pl * tl * cl,
          400 / pl * tl * cl * rps, 400 / pl * tl * cl * pps, 400 / pl * tl * cl * rps / 400⟩] := by
  norm_num [run_scenarios, scenarios, List.mapM, List.mapM.loop,
    computeRow_eq hs, computeRow_eq hl]

/-- `run_scenarios` at the default CLI parameters. -/
theorem run_scenarios_default :
    run_scenarios 0.06 0.05 0.05 0.06 0.04 0.05 100 50 = some defaultResults := by
  rw [run_scenarios_eq 0.06 0.05 0.05 0.06 0.04 0.05 100 50 (by norm_num) (by norm_num)]
  norm_num [defaultResults, smallRow, baselineRow, largeRow, longRow, Rat.mkRat_eq_div]

/-- The loop body at the default Small scenario. -/
theorem computeRow_small :
    computeRow "Small" 100 5 0.06 0.05 0.04 100 50 = some smallRow := by
  rw [computeRow_eq (by norm_num) "Small" 100 5 0.05 0.04 100 50]
  norm_num [smallRow, Rat.mkRat_eq_div]

/-- Unrolling of the `save_to_csv` fold: a header line followed by one
line per result. -/
theorem save_to_csv_foldl (results : List ScenarioResult) :
    ∀ acc : List (List String),
      results.foldl (fun file r => file ++ [csvRow r]) acc = acc ++ results.map csvRow := by
  induction results with
  | nil => intro acc; simp
  | cons r rs ih => intro acc; simp [ih (acc ++ [csvRow r])]

end Simulate

namespace Simulation

/-- `run_simulation` evaluated: its four rows as exact rationals. -/
theorem run_simulation_eq : run_simulation = some simResults := by
  norm_num [run_simulation, simScenarios, simRow, List.mapM, List.mapM.loop,
    simResults, simSmall, simBaseline, simLarge, simLong, Rat.mkRat_eq_div]

end Simulation

/-- C1: for every scenario processed by either variant, the funnel
pipeline equations hold: views = budget / cpv, clicks = views * ctr,
conversions = clicks * conversion_rate, revenue = conversions *
revenue_per_sale, and profit = conversions * profit_per_sale. -/
theorem C1_funnel_pipeline :
    (∀ (name : String) (budget : ℚ) (days : ℕ) (cpv ctr conv rps pps : ℚ)
        (r : ScenarioResult),
        Simulate.computeRow name budget days cpv ctr conv rps pps = some r →
        r.views = budget / cpv ∧ r.clicks = r.views * ctr ∧
        r.conversions = r.clicks * conv ∧ r.revenue = r.conversions * rps ∧
        r.profit = r.conversions * pps) ∧
    (∀ (s : Simulation.SimScenario) (r : ScenarioResult),
        Simulation.simRow s = some r →
        r.views = s.budget / s.cpv ∧ r.clicks = r.views * s.ctr ∧
        r.conversions = r.clicks * s.convRate ∧ r.revenue = r.conversions * s.revenuePerSale ∧
        r.profit = r.conversions * s.profitPerSale) := by
  constructor
  · intro name budget days cpv ctr conv rps pps r h
    by_cases hc : cpv = 0
    · simp [Simulate.computeRow, hc] at h
    · rw [Simulate.computeRow_eq hc] at h
      obtain rfl := Option.some.inj h
      exact ⟨rfl, rfl, rfl, rfl, rfl⟩
  · intro s r h
    by_cases hc : s.cpv = 0
    · simp [Simulation.simRow, hc] at h
    · by_cases hb : s.budget = 0
      · simp [Simulation.simRow, hc, hb] at h
      · simp only [Simulation.simRow, hc, hb, if_false, if_neg] at h
        obtain rfl := Option.some.inj h
        exact ⟨rfl, rfl, rfl, rfl, rfl⟩

/-- Witness for C1: the pipeline equations at the default Small
scenario of variant 1. -/
theorem C1_funnel_pipeline_witness :
    Simulate.smallRow.views = 100 / 0.06 ∧
    Simulate.smallRow.clicks = Simulate.smallRow.views * 0.05 ∧
    Simulate.smallRow.conversions = Simulate.smallRow.clicks * 0.04 ∧
    Simulate.smallRow.revenue = Simulate.smallRow.conversions * 100 ∧
    Simulate.smallRow.profit = Simulate.smallRow.conversions * 50 :=
  C1_funnel_pipeline.1 "Small" 100 5 0.06 0.05 0.04 100 50 Simulate.smallRow
    Simulate.computeRow_small

/-- C2: in variant 1 at the default parameters, every one of the four
default scenarios has ROI equal to revenue / budget. -/
theorem C2_roi_equals_revenue_over_budget :
    Simulate.run_scenarios 0.06 0.05 0.05 0.06 0.04 0.05 100 50
        = some Simulate.defaultResults ∧
    Simulate.smallRow.roi = Simulate.smallRow.revenue / Simulate.smallRow.budget ∧
    Simulate.baselineRow.roi = Simulate.baselineRow.revenue / Simulate.baselineRow.budget ∧
    Simulate.largeRow.roi = Simulate.largeRow.revenue / Simulate.largeRow.budget ∧
    Simulate.longRow.roi = Simulate.longRow.revenue / Simulate.longRow.budget := by
  refine ⟨Simulate.run_scenarios_default, ?_, ?_, ?_, ?_⟩ <;>
    norm_num [Simulate.smallRow, Simulate.baselineRow, Simulate.largeRow, Simulate.longRow,
      Rat.mkRat_eq_div]

/-- C3: on the same Small scenario the two variants agree on every
field except ROI: variant 1 has roi = revenue / budget, variant 2 has
roi = profit / budget, and the two values differ. -/
theorem C3_roi_definitions_diverge :
    Simulate.run_scenarios 0.06 0.05 0.05 0.06 0.04 0.05 100 50
        = some Simulate.defaultResults ∧
    Simulation.run_simulation = some Simulation.simResults ∧
    Simulate.smallRow.roi = Simulate.smallRow.revenue / Simulate.smallRow.budget ∧
    Simulation.simSmall.roi = Simulation.simSmall.profit / Simulation.simSmall.budget ∧
    rowData Simulate.smallRow = rowData Simulation.simSmall ∧
    Simulate.smallRow.roi ≠ Simulation.simSmall.roi := by
  refine ⟨Simulate.run_scenarios_default, Simulation.run_simulation_eq, ?_, ?_, ?_, ?_⟩
  · norm_num [Simulate.smallRow, Rat.mkRat_eq_div]
  · norm_num [Simulation.simSmall, Rat.mkRat_eq_div]
  · rfl
  · decide

/-- C4: in variant 1 a zero-budget scenario does not raise (as long as
cpv is nonzero, the only division the guard does not cover) and its
ROI resolves to 0. -/
theorem C4_zero_budget_roi_zero (name : String) (days : ℕ) (cpv ctr conv rps pps : ℚ)
    (h : cpv ≠ 0) :
    ∃ r, Simulate.computeRow name 0 days cpv ctr conv rps pps = some r ∧ r.roi = 0 := by
  refine ⟨_, Simulate.computeRow_eq h name 0 days ctr conv rps pps, ?_⟩
  simp

/-- Witness for C4: the zero-budget guard at the default Small
parameters. -/
theorem C4_zero_budget_roi_zero_witness :
    ∃ r, Simulate.computeRow "Small" 0 5 0.06 0.05 0.04 100 50 = some r ∧ r.roi = 0 :=
  C4_zero_budget_roi_zero "Small" 5 0.06 0.05 0.04 100 50 (by norm_num)

/-- C5: the default Small run of variant 1 (budget 100, cpv 0.06,
ctr 0.05, conversion rate 0.04, revenue_per_sale 100) gives, to two
decimal places, views 1666.67, clicks 83.33, conversions 3.33,
revenue 333.33 and roi 3.33. -/
theorem C5_default_small_values :
    Simulate.run_scenarios 0.06 0.05 0.05 0.06 0.04 0.05 100 50
        = some Simulate.defaultResults ∧
    Simulate.defaultResults.head? = some Simulate.smallRow ∧
    round (Simulate.smallRow.views * 100) = 166667 ∧
    round (Simulate.smallRow.clicks * 100) = 8333 ∧
    round (Simulate.smallRow.conversions * 100) = 333 ∧
    round (Simulate.smallRow.revenue * 100) = 33333 ∧
    round (Simulate.smallRow.roi * 100) = 333 := by
  refine ⟨Simulate.run_scenarios_default, rfl, ?_, ?_, ?_, ?_, ?_⟩ <;>
    norm_num [Simulate.smallRow, Rat.mkRat_eq_div, round_eq]

/-- C6: for all (valid, nonzero-cpv) parameter values variant 1
processes exactly the four scenarios Small (budget 100, 5 days),
Baseline (200, 10), Large (500, 30) and Long (400, 60) in this order,
the first two on the small-tier cpv/ctr/conversion parameters and the
last two on the large tier; variant 2 processes the same four
scenarios with the tiers hard-coded (0.06, 0.05, 0.04 for the small
tier and 0.05, 0.06, 0.05 for the large tier). -/
theorem C6_scenario_table :
    (∀ ps pl ts tl cs cl rps pps : ℚ, ps ≠ 0 → pl ≠ 0 →
      ∃ a b c d : ScenarioResult,
        Simulate.run_scenarios ps pl ts tl cs cl rps pps = some [a, b, c, d] ∧
        a.name = "Small" ∧ a.budget = 100 ∧ a.days = 5 ∧
        b.name = "Baseline" ∧ b.budget = 200 ∧ b.days = 10 ∧
        c.name = "Large" ∧ c.budget = 500 ∧ c.days = 30 ∧
        d.name = "Long" ∧ d.budget = 400 ∧ d.days = 60 ∧
        a.views = 100 / ps ∧ a.clicks = a.views * ts ∧ a.conversions = a.clicks * cs ∧
        b.views = 200 / ps ∧ b.clicks = b.views * ts ∧ b.conversions = b.clicks * cs ∧
        c.views = 500 / pl ∧ c.clicks = c.views * tl ∧ c.conversions = c.clicks * cl ∧
        d.views = 400 / pl ∧ d.clicks = d.views * tl ∧ d.conversions = d.clicks * cl) ∧
    (Simulation.run_simulation = some Simulation.simResults ∧
      Simulation.simScenarios.map (fun s => (s.name, s.budget, s.days, s.cpv, s.ctr, s.convRate))
        = [("Small", 100, 5, 0.06, 0.05, 0.04), ("Baseline", 200, 10, 0.06, 0.05, 0.04),
           ("Large", 500, 30, 0.05, 0.06, 0.05), ("Long", 400, 60, 0.05, 0.06, 0.05)]) := by
  constructor
  · intro ps pl ts tl cs cl rps pps hs hl
    exact ⟨_, _, _, _, Simulate.run_scenarios_eq ps pl ts tl cs cl rps pps hs hl, by simp⟩
  · exact ⟨Simulation.run_simulation_eq, rfl⟩

/-- Witness for C6: the scenario table shape at parameter value 1 for
every parameter. -/
theorem C6_scenario_table_witness :
    ∃ a b c d : ScenarioResult,
      Simulate.run_scenarios 1 1 1 1 1 1 1 1 = some [a, b, c, d] ∧
      a.name = "Small" ∧ a.budget = 100 ∧ a.days = 5 ∧
      b.name = "Baseline" ∧ b.budget = 200 ∧ b.days = 10 ∧
      c.name = "Large" ∧ c.budget = 500 ∧ c.days = 30 ∧
      d.name = "Long" ∧ d.budget = 400 ∧ d.days = 60 ∧
      a.views = 100 / 1 ∧ a.clicks = a.views * 1 ∧ a.conversions = a.clicks * 1 ∧
      b.views = 200 / 1 ∧ b.clicks = b.views * 1 ∧ b.conversions = b.clicks * 1 ∧
      c.views = 500 / 1 ∧ c.clicks = c.views * 1 ∧ c.conversions = c.clicks * 1 ∧
      d.views = 400 / 1 ∧ d.clicks = d.views * 1 ∧ d.conversions = d.clicks * 1 :=
  C6_scenario_table.1 1 1 1 1 1 1 1 1 (by norm_num) (by norm_num)

/-- C7: every CSV file written by either variant starts with exactly
the header Scenario,Budget,Days,Views,Clicks,Conversions,Revenue,
Profit,ROI and continues with one row per scenario. -/
theorem C7_csv_header :
    (∀ results : List ScenarioResult,
        Simulate.save_to_csv results
          = Simulate.fieldnames :: results.map Simulate.csvRow) ∧
    String.intercalate "," Simulate.fieldnames
      = "Scenario,Budget,Days,Views,Clicks,Conversions,Revenue,Profit,ROI" ∧
    Simulation.simulation_csv
      = some (Simulate.fieldnames :: Simulation.simResults.map Simulate.csvRow) := by
  refine ⟨?_, by decide, ?_⟩
  · intro results
    simpa [Simulate.save_to_csv] using Simulate.save_to_csv_foldl results [Simulate.fieldnames]
  · have h2 : Simulate.save_to_csv Simulation.simResults
        = Simulate.fieldnames :: Simulation.simResults.map Simulate.csvRow := by
      simpa [Simulate.save_to_csv] using
        Simulate.save_to_csv_foldl Simulation.simResults [Simulate.fieldnames]
    simp [Simulation.simulation_csv, Simulation.run_simulation_eq, h2]

/-- C8: writing the 4-row default results table of variant 1 to CSV
and parsing it back reproduces exactly the same table. -/
theorem C8_csv_round_trip :
    Simulate.run_scenarios 0.06 0.05 0.05 0.06 0.04 0.05 100 50
        = some Simulate.defaultResults ∧
    Simulate.parse_csv (Simulate.save_to_csv Simulate.defaultResults)
        = some Simulate.defaultResults :=
  ⟨Simulate.run_scenarios_default, by decide⟩

/-- C9: in variant 1 the ROI of any scenario with nonzero budget is
ctr * conversion_rate * revenue_per_sale / cpv, independent of the
budget; consequently Small and Baseline always share one ROI value and
Large and Long share another. -/
theorem C9_roi_budget_independent :
    (∀ (name : String) (budget : ℚ) (days : ℕ) (cpv ctr conv rps pps : ℚ)
        (r : ScenarioResult), budget ≠ 0 →
        Simulate.computeRow name budget days cpv ctr conv rps pps = some r →
        r.roi = ctr * conv * rps / cpv) ∧
    (∀ ps pl ts tl cs cl rps pps : ℚ, ps ≠ 0 → pl ≠ 0 →
      ∃ a b c d : ScenarioResult,
        Simulate.run_scenarios ps pl ts tl cs cl rps pps = some [a, b, c, d] ∧
        a.roi = b.roi ∧ c.roi = d.roi) := by
  constructor
  · intro name budget days cpv ctr conv rps pps r hb h
    by_cases hc : cpv = 0
    · simp [Simulate.computeRow, hc] at h
    · rw [Simulate.computeRow_eq hc] at h
      obtain rfl := Option.some.inj h
      show (if budget ≠ 0 then budget / cpv * ctr * conv * rps / budget else 0)
          = ctr * conv * rps / cpv
      rw [if_pos hb]
      field_simp
      ring
  · intro ps pl ts tl cs cl rps pps hs hl
    refine ⟨_, _, _, _, Simulate.run_scenarios_eq ps pl ts tl cs cl rps pps hs hl, ?_, ?_⟩
    · show (100 : ℚ) / ps * ts * cs * rps / 100 = 200 / ps * ts * cs * rps / 200
      field_simp
      ring
    · show (500 : ℚ) / pl * tl * cl * rps / 500 = 400 / pl * tl * cl * rps / 400
      field_simp
      ring

/-- Witness for C9: the default Small ROI equals
ctr * conversion_rate * revenue_per_sale / cpv. -/
theorem C9_roi_budget_independent_witness :
    Simulate.smallRow.roi = 0.05 * 0.04 * 100 / 0.06 :=
  C9_roi_budget_independent.1 "Small" 100 5 0.06 0.05 0.04 100 50 Simulate.smallRow
    (by norm_num) Simulate.computeRow_small

/-- C10: the days field influences no computed metric in either
variant: two scenario inputs differing only in days produce the same
views, clicks, conversions, revenue, profit and ROI. -/
theorem C10_days_immaterial :
    (∀ (name : String) (budget : ℚ) (d1 d2 : ℕ) (cpv ctr conv rps pps : ℚ),
        (Simulate.computeRow name budget d1 cpv ctr conv rps pps).map metricsOf
          = (Simulate.computeRow name budget d2 cpv ctr conv rps pps).map metricsOf) ∧
    (∀ (s : Simulation.SimScenario) (d1 d2 : ℕ),
        (Simulation.simRow
            (Simulation.SimScenario.mk s.name s.budget d1 s.cpv s.ctr s.convRate
              s.revenuePerSale s.profitPerSale)).map metricsOf
          = (Simulation.simRow
            (Simulation.SimScenario.mk s.name s.budget d2 s.cpv s.ctr s.convRate
              s.revenuePerSale s.profitPerSale)).map metricsOf) := by
  constructor
  · intro name budget d1 d2 cpv ctr conv rps pps
    by_cases hc : cpv = 0 <;> simp [Simulate.computeRow, hc, metricsOf]
  · intro s d1 d2
    by_cases hc : s.cpv = 0
    · simp [Simulation.simRow, hc]
    · by_cases hb : s.budget = 0 <;> simp [Simulation.simRow, hc, hb, metricsOf]
